import Mathlib

/-!
Verification of the vocal-analysis pipeline of `backend/voice_analyzer.py`
(class `VoiceAnalyzer`).

The embedding works over `ℚ` (an exact idealization of Python floats).  Library
stages whose numerics are transcendental (librosa's pyin/piptrack trackers, the
spectral-centroid brightness, the Welch-PSD vibrato estimator, scipy's peak
picking for shimmer) are deterministic external functions of the audio buffer;
they are modelled as fields of a `DSP` parameter record.  Python's global
`random` is modelled by an explicit `RandState` record of the draws the
fallback generator makes.  Note names are modelled by their half-step index
relative to C0 (12-tone equal temperament, A4 = 440 Hz), the exact quantity
`_frequency_to_note` rounds to; `noteName` renders the Python string.
-/

/-- Mean of a list of rationals (`np.mean`). -/
def qmean (l : List ℚ) : ℚ := l.sum / (l.length : ℚ)

/-- Insert into a sorted list (used to model `np.sort`). -/
def insertSorted (x : ℚ) : List ℚ → List ℚ
  | [] => [x]
  | y :: ys => if x ≤ y then x :: y :: ys else y :: insertSorted x ys

/-- Sorting (`np.sort`). -/
def sortQ (l : List ℚ) : List ℚ := l.foldr insertSorted []

/-- `np.percentile(l, q)` with the default linear interpolation:
`h = (n-1)·q/100`, interpolating between the sorted elements at `⌊h⌋` and `⌈h⌉`.
The upper index is written `⌊h⌋ + 1` instead of `⌈h⌉`: the two agree for
non-integral `h`, and for integral `h` the interpolation weight `h - ⌊h⌋` is
zero, so the upper element contributes nothing either way. -/
def percentileQ (l : List ℚ) (q : ℚ) : ℚ :=
  let s := sortQ l
  let h : ℚ := ((l.length : ℚ) - 1) * q / 100
  let lo := (⌊h⌋).toNat
  s.getD lo 0 + (h - ⌊h⌋) * (s.getD (lo + 1) 0 - s.getD lo 0)

/-- `np.median` (= 50th percentile with linear interpolation). -/
def qmedian (l : List ℚ) : ℚ := percentileQ l 50

/-- Maximum of a list (`np.max`); unreachable default 0 on `[]`. -/
def lmax : List ℚ → ℚ
  | [] => 0
  | x :: xs => xs.foldl max x

/-- Minimum of a list (`np.min`); unreachable default 0 on `[]`. -/
def lmin : List ℚ → ℚ
  | [] => 0
  | x :: xs => xs.foldl min x

/-- Peak-to-peak range `np.ptp`. -/
def qptp (l : List ℚ) : ℚ := lmax l - lmin l

/-- First differences `np.diff`. -/
def qdiffs : List ℚ → List ℚ
  | [] => []
  | [_] => []
  | x :: y :: t => (y - x) :: qdiffs (y :: t)

/-- Population variance (`np.var`, and the square of `np.std`). -/
def qvariance (l : List ℚ) : ℚ :=
  ((l.map (fun x => (x - qmean l) ^ 2)).sum) / (l.length : ℚ)

/-- Heron/Newton iteration for the integer square root, fuel-bounded so that it
is structurally recursive (hence kernel-evaluable). -/
def isqrtAux : ℕ → ℕ → ℕ → ℕ
  | 0, _, x => x
  | f + 1, n, x =>
    let y := (x + n / x) / 2
    if y < x then isqrtAux f n y else x

/-- Integer square root (floor of √n). -/
def isqrt (n : ℕ) : ℕ := if n ≤ 1 then n else isqrtAux 400 n n

/-- Square root on ℚ, taken componentwise on numerator and denominator.  It is
exact whenever the argument is the square of a rational; every concrete input
this development evaluates a standard deviation at is such a perfect square, and
no universally quantified theorem below depends on the value of `ratSqrt`. -/
def ratSqrt (q : ℚ) : ℚ :=
  if q ≤ 0 then 0 else (isqrt q.num.toNat : ℚ) / (isqrt q.den : ℚ)

/-- Population standard deviation `np.std`. -/
def qstd (l : List ℚ) : ℚ := ratSqrt (qvariance l)

/-- Python's `round` to an integer: round-half-to-even (banker's rounding). -/
def pyRoundInt (x : ℚ) : ℤ :=
  let f := ⌊x⌋
  let r := x - (f : ℚ)
  if r < 1/2 then f
  else if 1/2 < r then f + 1
  else if f % 2 = 0 then f else f + 1

/-- Python's `round(x, k)` for `k` decimal places. -/
def roundTo (k : ℕ) (x : ℚ) : ℚ := (pyRoundInt (x * 10 ^ k) : ℚ) / 10 ^ k

/-- `np.clip(x, lo, hi)` = `minimum(maximum(x, lo), hi)`. -/
def rclip (x lo hi : ℚ) : ℚ := min (max x lo) hi

/-- `random.uniform(a, b)` = `a + (b-a)·t` for a draw `t ∈ [0,1]`. -/
def uniformDraw (a b t : ℚ) : ℚ := a + (b - a) * t

/-- `random.choice` on a list of strings, the random index given as a natural
number reduced modulo the length. -/
def choiceOf (l : List String) (k : ℕ) : String := l.getD (k % l.length) ""

/-- Fuel-bounded binary logarithm on ℕ (structurally recursive). -/
def natLog2Fuel : ℕ → ℕ → ℕ
  | 0, _ => 0
  | f + 1, n => if n ≤ 1 then 0 else natLog2Fuel f (n / 2) + 1

/-- `⌊log₂ n⌋` for `n ≥ 1` (0 on 0). -/
def natLog2 (n : ℕ) : ℕ := natLog2Fuel n n

/-- `⌊log₂ q⌋` for a positive rational `q = a/b`: compare the leading binary
digits of numerator and denominator. -/
def floorLog2 (q : ℚ) : ℤ :=
  let a := q.num.toNat
  let b := q.den
  if b * 2 ^ natLog2 a ≤ a * 2 ^ natLog2 b then (natLog2 a : ℤ) - (natLog2 b : ℤ)
  else (natLog2 a : ℤ) - (natLog2 b : ℤ) - 1

/-- `⌊k/2⌋` on ℤ. -/
def halfOf (k : ℤ) : ℤ := ⌊(k : ℚ) / 2⌋

/-- `c0^24` where `c0 = 440·2^(-4.75)` Hz is the frequency of C0 used by
`_frequency_to_note`; the 24th power is rational. -/
def c0pow24 : ℚ := 440 ^ 24 / 2 ^ 114

/-- `_frequency_to_note`, as the half-step index it rounds to.  The source
computes `half_steps = round(12·log2(f/c0))` and renders
`note_names[half_steps % 12]` with octave `half_steps // 12`; for `f ≤ 0` it
returns the default "C3" (half-step 36).  For rational `f > 0` the rounded value
is never a tie (a tie would force `f = 440·2^((2m-113)/24)`, irrational), and
`round(x) = ⌊(⌊24·x⌋+1)/2⌋` when `24·x` is never a half-integer... concretely:
`round(12·log2(f/c0))` is `⌊(k+1)/2⌋` for `k = ⌊log₂(f^24/c0^24)⌋`. -/
def frequencyToNote (f : ℚ) : ℤ :=
  if f ≤ 0 then 36 else halfOf (floorLog2 (f ^ 24 / c0pow24) + 1)

/-- The twelve note names of `_frequency_to_note`. -/
def noteNames : List String :=
  ["C", "C#", "D", "D#", "E", "F"] ++ ["F#", "G", "G#", "A", "A#", "B"]

/-- Render a half-step index as the Python note string
`note_names[n % 12] + str(n // 12)` (Python `%`/`//` are floor-based). -/
def noteName (n : ℤ) : String := noteNames.getD (n.fmod 12).toNat "C" ++ toString (n.fdiv 12)

/-- Pattern `p` starts the character list `s`. -/
def startsChars : List Char → List Char → Bool
  | [], _ => true
  | _ :: _, [] => false
  | p :: ps, c :: cs => p == c && startsChars ps cs

/-- Pattern occurs somewhere in the character list. -/
def charsHaveSub (p : List Char) : List Char → Bool
  | [] => p.isEmpty
  | c :: cs => startsChars p (c :: cs) || charsHaveSub p cs

/-- Python's substring test `pat in s`. -/
def hasSub (s pat : String) : Bool := charsHaveSub pat.toList s.toList

/-- The flat metrics record `analyze_audio_file` returns.  `lowest_note` and
`highest_note` are the half-step indices of the note strings (see `noteName`). -/
structure VocalMetrics where
  mean_pitch : ℚ
  vibrato_rate : ℚ
  jitter : ℚ
  shimmer : ℚ
  dynamics : String
  voice_type : String
  lowest_note : ℤ
  highest_note : ℤ
deriving Repr, DecidableEq

/-- `_simple_voice_type`. -/
def simpleVoiceType (pitch : ℚ) : String :=
  if pitch < 250 then "bass"
  else if pitch < 300 then "baritone"
  else if pitch < 350 then "tenor"
  else "alto"

/-- `_determine_voice_type_advanced`.  The harmonic-features dict is consulted
only for `'brightness'` (default 0.05), passed here directly.  The source's
`except` fallback classifier is unreachable for the nonempty positive pitch
series the pipeline produces (numpy emits warnings, not exceptions, there). -/
def determineVoiceTypeAdvanced (pv : List ℚ) (brightness : ℚ) : String :=
  let centralPitch := 0.7 * qmean pv + 0.3 * qmedian pv
  let adjustedPitch := centralPitch * (1 + (brightness - 0.05) * 2)
  if adjustedPitch < 160 then "bass"
  else if adjustedPitch < 200 then "bass-baritone"
  else if adjustedPitch < 250 then "baritone"
  else if adjustedPitch < 300 then "tenor"
  else if adjustedPitch < 350 then "alto"
  else if adjustedPitch < 450 then "mezzo-soprano"
  else "soprano"

/-- The amplitude windows of `_categorize_dynamics_advanced`:
`window_size = len(env)/20` and one mean per index of
`range(0, len(env) - window_size, window_size)` over `env = |audio|`. -/
def ampWindows (audio : List ℚ) : List ℚ :=
  let env := audio.map (fun x => |x|)
  let ws := audio.length / 20
  let n := env.length - ws
  let count := (n + ws - 1) / ws
  (List.range count).map (fun i => ((env.drop (i * ws)).take ws).sum / (ws : ℚ))

/-- The comprehensive dynamics score of `_categorize_dynamics_advanced`.
`np.correlate(d, d, 'valid')` for equal-length inputs is the single value
`Σ dᵢ²` (so its length is 1 and `np.max(np.abs(·))` is that sum). -/
def dynScore (pv audio : List ℚ) : ℚ :=
  let pitchCv := qstd pv / qmean pv
  let pitchRange := qptp pv / qmean pv
  let win := ampWindows audio
  let ampCv := if win = [] then 0.1 else qstd win / (qmean win + 1e-8)
  let ampRange := if win = [] then 0.2 else qptp win / (qmean win + 1e-8)
  let base := 0.3 * pitchCv + 0.2 * pitchRange + 0.3 * ampCv + 0.2 * ampRange
  if 50 < pv.length then
    let d := qdiffs pv
    let patternStrength := (d.map (fun x => x ^ 2)).sum / (qvariance d + 1e-8)
    base * (1 + 0.2 * patternStrength)
  else base

/-- `_categorize_dynamics_advanced`.  When `window_size = 0` (audio shorter
than 20 samples) the source's `range(0, ·, 0)` raises `ValueError`, caught by
the surrounding `except`, which returns "stable". -/
def categorizeDynamicsAdvanced (pv audio : List ℚ) : String :=
  if audio.length / 20 = 0 then "stable"
  else
    let s := dynScore pv audio
    if s < 0.08 then "stable"
    else if s < 0.15 then "controlled"
    else if s < 0.25 then "variable"
    else if s < 0.35 then "expressive"
    else "highly expressive"

/-- `_calculate_robust_mean_pitch`: trimmed mean over the slice
`sorted[int(n·0.1) : int(n·0.9)]`. -/
def robustMeanPitch (pv : List ℚ) : ℚ :=
  if pv.length < 3 then qmean pv
  else
    let n := pv.length
    qmean (((sortQ pv).drop (n / 10)).take (n * 9 / 10 - n / 10))

/-- `_get_stable_pitch_percentile`: percentile over the pitches whose following
frame-to-frame absolute change is below the median change. -/
def stablePitchPercentile (pv : List ℚ) (p : ℚ) : ℚ :=
  if pv.length < 5 then percentileQ pv p
  else
    let d := (qdiffs pv).map (fun x => |x|)
    let thr := percentileQ d 50
    let stable := (List.range d.length).filterMap
      (fun i => if d.getD i 0 < thr then some (pv.getD i 0) else none)
    if stable = [] then percentileQ pv p else percentileQ stable p

/-- The pseudo-random draws the fallback generator makes: `u0` for the
estimated-pitch `random.uniform(150, 400)`, `u1`/`u2`/`u3` for the vibrato,
jitter and shimmer-factor uniforms (each in `[0,1]`), and `c` for the
`random.choice` index over the dynamics list. -/
structure RandState where
  u0 : ℚ
  u1 : ℚ
  u2 : ℚ
  u3 : ℚ
  c : ℕ

/-- The uniform draws lie in the unit interval, as `random.uniform` guarantees. -/
def UnitRange (g : RandState) : Prop :=
  0 ≤ g.u0 ∧ g.u0 ≤ 1 ∧ 0 ≤ g.u1 ∧ g.u1 ≤ 1 ∧ 0 ≤ g.u2 ∧ g.u2 ≤ 1 ∧ 0 ≤ g.u3 ∧ g.u3 ≤ 1

instance (g : RandState) : Decidable (UnitRange g) := by
  unfold UnitRange; infer_instance

/-- The deterministic library-backed stages of the pipeline whose numerics are
transcendental and therefore kept abstract: `extractPitch` is preprocessing plus
`_extract_pitch_advanced` (pyin + piptrack + IQR filtering), `brightness` is the
normalized spectral centroid of `_extract_harmonic_features`, `vibratoRate`,
`jitterCalc` and `shimmerCalc` are `_calculate_vibrato_rate_advanced`,
`_calculate_jitter_advanced` and `_calculate_shimmer_advanced`, and
`fallbackEstimate` is the best-effort piptrack median over the first two seconds
used by `_enhanced_fallback_analysis` (`none` when it fails or finds no pitch).
All are plain functions of the decoded buffer: none of them reads `random`. -/
structure DSP where
  extractPitch : List ℚ → List ℚ
  brightness : List ℚ → ℚ
  vibratoRate : List ℚ → ℚ
  jitterCalc : List ℚ → ℚ
  shimmerCalc : List ℚ → ℚ
  fallbackEstimate : List ℚ → Option ℚ

/-- One entry of the fallback generator's `param_ranges` table. -/
structure ParamRange where
  plo : ℚ
  phi : ℚ
  vlo : ℚ
  vhi : ℚ
  jlo : ℚ
  jhi : ℚ

/-- The `param_ranges` dict of `_enhanced_fallback_analysis`, with
`dict.get(voice_type, param_ranges['tenor'])` as the default. -/
def paramRanges (vt : String) : ParamRange :=
  if vt = "bass" then ⟨85, 260, 3.5, 5.5, 0.008, 0.020⟩
  else if vt = "baritone" then ⟨110, 290, 4.0, 6.0, 0.007, 0.018⟩
  else if vt = "tenor" then ⟨130, 340, 4.5, 6.5, 0.006, 0.016⟩
  else if vt = "alto" then ⟨175, 440, 5.0, 7.0, 0.005, 0.015⟩
  else ⟨130, 340, 4.5, 6.5, 0.006, 0.016⟩

/-- `mean_pitch if mean_pitch else random.uniform(150, 400)`: the hint is used
when present and truthy (nonzero — Python float truthiness), otherwise a
uniform draw. -/
def hintOr (hint : Option ℚ) (g : RandState) : ℚ :=
  match hint with
  | some h => if h = 0 then uniformDraw 150 400 g.u0 else h
  | none => uniformDraw 150 400 g.u0

/-- The working pitch estimate of `_enhanced_fallback_analysis`: the best-effort
audio estimate when a nonempty buffer is available and the estimate succeeds,
else the hint-or-random value. -/
def fallbackEstimated (dsp : DSP) (hint : Option ℚ) (audio : Option (List ℚ)) (g : RandState) : ℚ :=
  match audio with
  | some y =>
      if 0 < y.length then
        match dsp.fallbackEstimate y with
        | some e => e
        | none => hintOr hint g
      else hintOr hint g
  | none => hintOr hint g

/-- `_enhanced_fallback_analysis`. -/
def enhancedFallback (dsp : DSP) (hint : Option ℚ) (audio : Option (List ℚ)) (g : RandState) :
    VocalMetrics :=
  let estimated := fallbackEstimated dsp hint audio g
  let vt := simpleVoiceType estimated
  let pr := paramRanges vt
  let jitterBase := uniformDraw pr.jlo pr.jhi g.u2
  let shimmerBase := jitterBase * uniformDraw 1.2 1.8 g.u3
  { mean_pitch := rclip estimated pr.plo pr.phi
    vibrato_rate := roundTo 1 (uniformDraw pr.vlo pr.vhi g.u1)
    jitter := roundTo 3 jitterBase
    shimmer := roundTo 3 shimmerBase
    dynamics := choiceOf ["stable", "controlled", "variable"] g.c
    voice_type := vt
    lowest_note := frequencyToNote (estimated * 0.7)
    highest_note := frequencyToNote (estimated * 1.8) }

/-- First phase of `_validate_and_refine_results`: when a truthy positive hint
is supplied (`if frontend_pitch and frontend_pitch > 0`) and the computed mean
pitch is outside [50, 1000], replace the mean pitch with the hint and
reclassify the voice type with `_simple_voice_type`. -/
def hintOverride (r : VocalMetrics) (hint : Option ℚ) : VocalMetrics :=
  match hint with
  | some h =>
      if 0 < h ∧ (r.mean_pitch < 50 ∨ 1000 < r.mean_pitch) then
        { r with mean_pitch := h, voice_type := simpleVoiceType h }
      else r
  | none => r

/-- Second phase of `_validate_and_refine_results`: clip each numeric metric
into its realistic range. -/
def clampMetrics (r : VocalMetrics) : VocalMetrics :=
  { r with
    mean_pitch := rclip r.mean_pitch 80 800
    vibrato_rate := rclip r.vibrato_rate 0 10
    jitter := rclip r.jitter 0.001 0.050
    shimmer := rclip r.shimmer 0.005 0.060 }

/-- Third phase of `_validate_and_refine_results`: the note-span test
`highest_freq < lowest_freq * 1.5` on `librosa.note_to_hz` values is, in
half-steps, exactly `highest < lowest + 8`: the frequency ratio is
`2^((highest-lowest)/12)` and `2^7 < 1.5^12 = 129.746… < 2^8`, so the ratio is
below 1.5 iff the half-step difference is at most 7.  On violation the notes
are replaced by the voice-type default range, chosen by Python substring tests
(`'bass' in voice_type`, …) in the source's order. -/
def fixNoteRange (r : VocalMetrics) : VocalMetrics :=
  if r.highest_note < r.lowest_note + 8 then
    if hasSub r.voice_type "bass" then { r with lowest_note := 28, highest_note := 52 }
    else if hasSub r.voice_type "baritone" then { r with lowest_note := 31, highest_note := 55 }
    else if hasSub r.voice_type "tenor" then { r with lowest_note := 36, highest_note := 60 }
    else if hasSub r.voice_type "soprano" then { r with lowest_note := 48, highest_note := 72 }
    else { r with lowest_note := 43, highest_note := 67 }
  else r

/-- `_validate_and_refine_results`: the three phases in the source's order. -/
def validateAndRefine (r : VocalMetrics) (hint : Option ℚ) : VocalMetrics :=
  fixNoteRange (clampMetrics (hintOverride r hint))

/-- `analyze_audio_file`.  The whole body sits inside `try`: a load failure
(the `.error` case, covering unreadable, empty and `None` paths — `librosa.load`
raises on all of them) is caught by the blanket `except` and routed to the
fallback generator, as is an extraction yielding fewer than 10 pitch values.
Otherwise the record of calculator results is built and validated. -/
def analyzeAudioFile (dsp : DSP) (load : Except String (List ℚ)) (hint : Option ℚ)
    (g : RandState) : VocalMetrics :=
  match load with
  | .error _ => enhancedFallback dsp hint none g
  | .ok y =>
      let pv := dsp.extractPitch y
      if pv.length < 10 then enhancedFallback dsp hint (some y) g
      else
        let results : VocalMetrics := {
          mean_pitch := robustMeanPitch pv
          vibrato_rate := dsp.vibratoRate pv
          jitter := dsp.jitterCalc pv
          shimmer := dsp.shimmerCalc y
          dynamics := categorizeDynamicsAdvanced pv y
          voice_type := determineVoiceTypeAdvanced pv (dsp.brightness y)
          lowest_note := frequencyToNote (stablePitchPercentile pv 5)
          highest_note := frequencyToNote (stablePitchPercentile pv 95) }
        validateAndRefine results hint

/-- The numeric range invariants of §3 of the spec (claim C2). -/
def rangesOk (r : VocalMetrics) : Prop :=
  80 ≤ r.mean_pitch ∧ r.mean_pitch ≤ 800 ∧ 0 ≤ r.vibrato_rate ∧ r.vibrato_rate ≤ 10 ∧
  0.001 ≤ r.jitter ∧ r.jitter ≤ 0.05 ∧ 0.005 ≤ r.shimmer ∧ r.shimmer ≤ 0.06

/-- The range-span invariant: frequency(highest) ≥ 1.5 × frequency(lowest).
In 12-TET the frequency ratio of two notes is `2^((hi-lo)/12)`, and
`2^7 < 1.5^12 < 2^8`, so the ratio is at least 1.5 iff the half-step difference
is at least 8. -/
def spanOk (r : VocalMetrics) : Prop := r.lowest_note + 8 ≤ r.highest_note

/-- The voice-type bucketing exactly as claim C6 words it: fixed Hz thresholds
160/200/250/300/350/450 over the brightness-adjusted pitch, seven ordered
categories from bass to soprano. -/
def specVoiceBucket (adjusted : ℚ) : String :=
  if adjusted < 160 then "bass"
  else if adjusted < 200 then "bass-baritone"
  else if adjusted < 250 then "baritone"
  else if adjusted < 300 then "tenor"
  else if adjusted < 350 then "alto"
  else if adjusted < 450 then "mezzo-soprano"
  else "soprano"

/-- The five-way dynamics category map exactly as claim C7 words it:
boundaries at 0.08/0.15/0.25/0.35. -/
def specThresholdMap (s : ℚ) : String :=
  if s < 0.08 then "stable"
  else if s < 0.15 then "controlled"
  else if s < 0.25 then "variable"
  else if s < 0.35 then "expressive"
  else "highly expressive"

/-- The dynamics score exactly as claim C7 words it: the weighted sum
`0.3·pitch-CoV + 0.2·pitch-range-ratio + 0.3·amplitude-CoV +
0.2·amplitude-range-ratio`, multiplied by `1 + 0.2·pattern_strength` whenever
AT LEAST 50 pitch samples are available. -/
def specDynamicsScoreAtLeast50 (pv audio : List ℚ) : ℚ :=
  let win := ampWindows audio
  let ampCv := if win = [] then 0.1 else qstd win / (qmean win + 1e-8)
  let ampRange := if win = [] then 0.2 else qptp win / (qmean win + 1e-8)
  let score := 0.3 * (qstd pv / qmean pv) + 0.2 * (qptp pv / qmean pv) +
    0.3 * ampCv + 0.2 * ampRange
  if 50 ≤ pv.length then
    score * (1 + 0.2 * (((qdiffs pv).map (fun x => x ^ 2)).sum / (qvariance (qdiffs pv) + 1e-8)))
  else score

/-- The dynamics score as the previous definition but with the multiplier
applied only when STRICTLY MORE than 50 pitch samples are available — the
amended form of claim C7 that the code satisfies. -/
def specDynamicsScoreMoreThan50 (pv audio : List ℚ) : ℚ :=
  let win := ampWindows audio
  let ampCv := if win = [] then 0.1 else qstd win / (qmean win + 1e-8)
  let ampRange := if win = [] then 0.2 else qptp win / (qmean win + 1e-8)
  let score := 0.3 * (qstd pv / qmean pv) + 0.2 * (qptp pv / qmean pv) +
    0.3 * ampCv + 0.2 * ampRange
  if 50 < pv.length then
    score * (1 + 0.2 * (((qdiffs pv).map (fun x => x ^ 2)).sum / (qvariance (qdiffs pv) + 1e-8)))
  else score

theorem natLog2Fuel_spec : ∀ fuel n : ℕ, 1 ≤ n → n ≤ fuel →
    2 ^ natLog2Fuel fuel n ≤ n ∧ n < 2 ^ (natLog2Fuel fuel n + 1) := by
  intro fuel
  induction fuel with
  | zero => intro n h1 h2; omega
  | succ f ih =>
      intro n h1 h2
      unfold natLog2Fuel
      split_ifs with hle
      · constructor <;> simp <;> omega
      · have hm1 : 1 ≤ n / 2 := by omega
        have hm2 : n / 2 ≤ f := by omega
        obtain ⟨ha, hb⟩ := ih (n / 2) hm1 hm2
        constructor
        · calc 2 ^ (natLog2Fuel f (n / 2) + 1) = 2 * 2 ^ natLog2Fuel f (n / 2) := by ring
          _ ≤ 2 * (n / 2) := by omega
          _ ≤ n := by omega
        · calc n < 2 ^ (natLog2Fuel f (n / 2) + 1) * 2 := by omega
          _ = 2 ^ (natLog2Fuel f (n / 2) + 1 + 1) := by ring

theorem natLog2_spec (n : ℕ) (h : 1 ≤ n) : 2 ^ natLog2 n ≤ n ∧ n < 2 ^ (natLog2 n + 1) :=
  natLog2Fuel_spec n n h le_rfl

theorem floorLog2_spec (q : ℚ) (hq : 0 < q) :
    (2 : ℚ) ^ floorLog2 q ≤ q ∧ q < 2 ^ (floorLog2 q + 1) := by
  have hnum : 0 < q.num := Rat.num_pos.mpr hq
  set a := q.num.toNat with hadef
  set b := q.den with hbdef
  have ha : 1 ≤ a := by omega
  have hb : 1 ≤ b := q.den_pos
  have hcast : ((a : ℤ) : ℚ) = (q.num : ℚ) := by
    rw [hadef, Int.toNat_of_nonneg hnum.le]
  have hq_eq : q = (a : ℚ) / (b : ℚ) := by
    rw [show ((a : ℕ) : ℚ) = ((a : ℤ) : ℚ) by push_cast; ring, hcast, hbdef]
    exact (Rat.num_div_den q).symm
  obtain ⟨hla1, hla2⟩ := natLog2_spec a ha
  obtain ⟨hlb1, hlb2⟩ := natLog2_spec b hb
  set la := natLog2 a
  set lb := natLog2 b
  have hbQ : (0 : ℚ) < (b : ℚ) := by exact_mod_cast hb
  have hpowQ : ∀ m : ℕ, (0:ℚ) < (2:ℚ) ^ (m : ℤ) := fun m => by positivity
  have hz : ∀ m : ℕ, ((2:ℚ) ^ (m : ℤ)) = ((2 ^ m : ℕ) : ℚ) := fun m => by
    rw [zpow_natCast]; push_cast; ring
  unfold floorLog2
  rw [← hadef, ← hbdef]
  dsimp only
  split_ifs with hcond
  · constructor
    · rw [sub_eq_add_neg, zpow_add₀ (two_ne_zero), hq_eq, zpow_neg, ← div_eq_mul_inv]
      rw [div_le_div_iff₀ (hpowQ lb) hbQ, hz la, hz lb]
      exact_mod_cast (by nlinarith [hcond] : (2:ℕ) ^ la * b ≤ a * 2 ^ lb)
    · rw [show (la : ℤ) - lb + 1 = ((la + 1 : ℕ) : ℤ) + (-(lb : ℤ)) by push_cast; ring,
        zpow_add₀ (two_ne_zero), hq_eq, zpow_neg, ← div_eq_mul_inv]
      rw [div_lt_div_iff₀ hbQ (hpowQ lb), hz (la + 1), hz lb]
      have : a * 2 ^ lb < 2 ^ (la + 1) * b := by
        calc a * 2 ^ lb < 2 ^ (la + 1) * 2 ^ lb := by
              exact Nat.mul_lt_mul_of_lt_of_le hla2 le_rfl (by positivity)
        _ ≤ 2 ^ (la + 1) * b := Nat.mul_le_mul_left _ hlb1
      exact_mod_cast this
  · push_neg at hcond
    constructor
    · rw [show (la : ℤ) - lb - 1 = ((la : ℕ) : ℤ) + (-((lb + 1 : ℕ) : ℤ)) by push_cast; ring,
        zpow_add₀ (two_ne_zero), hq_eq, zpow_neg, ← div_eq_mul_inv]
      rw [div_le_div_iff₀ (hpowQ (lb + 1)) hbQ, hz la, hz (lb + 1)]
      have : (2:ℕ) ^ la * b ≤ a * 2 ^ (lb + 1) := by
        calc (2:ℕ) ^ la * b ≤ a * b := Nat.mul_le_mul_right _ hla1
        _ ≤ a * 2 ^ (lb + 1) := Nat.mul_le_mul_left _ hlb2.le
      exact_mod_cast this
    · rw [show (la : ℤ) - lb - 1 + 1 = ((la : ℕ) : ℤ) + (-(lb : ℤ)) by ring,
        zpow_add₀ (two_ne_zero), hq_eq, zpow_neg, ← div_eq_mul_inv]
      rw [div_lt_div_iff₀ hbQ (hpowQ lb), hz la, hz lb]
      exact_mod_cast (by nlinarith [hcond] : a * 2 ^ lb < 2 ^ la * b)

theorem floorLog2_unique (q : ℚ) (k : ℤ) (hq : 0 < q)
    (h1 : (2:ℚ) ^ k ≤ q) (h2 : q < 2 ^ (k + 1)) : floorLog2 q = k := by
  obtain ⟨g1, g2⟩ := floorLog2_spec q hq
  by_contra hne
  rcases lt_or_gt_of_ne hne with hlt | hgt
  · have : (2:ℚ) ^ (floorLog2 q + 1) ≤ 2 ^ k := zpow_le_zpow_right₀ one_le_two (by omega)
    linarith
  · have : (2:ℚ) ^ (k + 1) ≤ 2 ^ floorLog2 q := zpow_le_zpow_right₀ one_le_two (by omega)
    linarith

theorem floorLog2_mono {x y : ℚ} (hx : 0 < x) (hxy : x ≤ y) : floorLog2 x ≤ floorLog2 y := by
  obtain ⟨g1, g2⟩ := floorLog2_spec x hx
  obtain ⟨h1, h2⟩ := floorLog2_spec y (lt_of_lt_of_le hx hxy)
  by_contra hlt
  push_neg at hlt
  have : (2:ℚ) ^ (floorLog2 y + 1) ≤ 2 ^ floorLog2 x := zpow_le_zpow_right₀ one_le_two (by omega)
  linarith

theorem floorLog2_shift (x : ℚ) (hx : 0 < x) (n : ℕ) :
    floorLog2 ((2:ℚ) ^ n * x) = n + floorLog2 x := by
  obtain ⟨g1, g2⟩ := floorLog2_spec x hx
  refine floorLog2_unique _ _ (by positivity) ?_ ?_
  · rw [zpow_add₀ two_ne_zero, zpow_natCast]
    exact mul_le_mul_of_nonneg_left g1 (by positivity)
  · rw [show ((n:ℤ) + floorLog2 x + 1) = (n:ℤ) + (floorLog2 x + 1) by ring,
      zpow_add₀ two_ne_zero, zpow_natCast]
    exact mul_lt_mul_of_pos_left g2 (by positivity)

theorem halfOf_mono {j k : ℤ} (h : j ≤ k) : halfOf j ≤ halfOf k :=
  Int.floor_le_floor (by
    have h2 : (j:ℚ) ≤ (k:ℚ) := by exact_mod_cast h
    linarith)

theorem halfOf_add_32 (k : ℤ) : halfOf (k + 32) = halfOf k + 16 := by
  unfold halfOf
  rw [show ((k + 32 : ℤ) : ℚ) / 2 = (k:ℚ)/2 + (16:ℤ) by push_cast; ring, Int.floor_add_int]

/-- For a positive working pitch estimate, the fallback generator's two notes
(at 0.7× and 1.8× the estimate) are at least 8 half-steps apart: the frequency
ratio 18/7 satisfies `2^32 ≤ (18/7)^24`, i.e. `12·log2(18/7) > 16 ≥ 8`. -/
theorem frequencyToNote_span {p : ℚ} (hp : 0 < p) :
    frequencyToNote (p * 0.7) + 8 ≤ frequencyToNote (p * 1.8) := by
  have hf1 : 0 < p * 0.7 := by nlinarith
  have hf2 : 0 < p * 1.8 := by nlinarith
  have hc0 : 0 < c0pow24 := by norm_num [c0pow24]
  have hr1 : 0 < (p * 0.7) ^ 24 / c0pow24 := by positivity
  unfold frequencyToNote
  rw [if_neg (by linarith), if_neg (by linarith)]
  set r1 := (p * 0.7) ^ 24 / c0pow24 with hr1def
  have hkey : (p * 1.8) ^ 24 / c0pow24 = (18/7 : ℚ) ^ 24 * r1 := by
    rw [hr1def, show (p * 1.8) = (p * 0.7) * (18/7) by ring, mul_pow]
    ring
  have hpow : (2:ℚ) ^ (32:ℕ) ≤ (18/7 : ℚ) ^ 24 := by
    rw [div_pow, le_div_iff₀ (by positivity)]
    norm_num
  have hge : (2:ℚ) ^ (32:ℕ) * r1 ≤ (18/7 : ℚ) ^ 24 * r1 :=
    mul_le_mul_of_nonneg_right hpow hr1.le
  have hk2 : (32:ℤ) + floorLog2 r1 ≤ floorLog2 ((p * 1.8) ^ 24 / c0pow24) := by
    rw [hkey]
    calc (32:ℤ) + floorLog2 r1 = floorLog2 ((2:ℚ) ^ (32:ℕ) * r1) :=
          (floorLog2_shift r1 hr1 32).symm
    _ ≤ floorLog2 ((18/7 : ℚ) ^ 24 * r1) := floorLog2_mono (by positivity) hge
  calc halfOf (floorLog2 r1 + 1) + 8 ≤ halfOf (floorLog2 r1 + 1) + 16 := by omega
  _ = halfOf (floorLog2 r1 + 1 + 32) := (halfOf_add_32 _).symm
  _ ≤ halfOf (floorLog2 ((p * 1.8) ^ 24 / c0pow24) + 1) := halfOf_mono (by omega)

theorem rclip_bounds (x lo hi : ℚ) (h : lo ≤ hi) :
    lo ≤ rclip x lo hi ∧ rclip x lo hi ≤ hi :=
  ⟨le_min (le_max_right x lo) h, min_le_right _ _⟩

theorem uniformDraw_bounds {a b t : ℚ} (hab : a ≤ b) (h0 : 0 ≤ t) (h1 : t ≤ 1) :
    a ≤ uniformDraw a b t ∧ uniformDraw a b t ≤ b := by
  unfold uniformDraw
  constructor <;> nlinarith

theorem pyRoundInt_bounds {y : ℚ} {A B : ℤ} (h1 : (A:ℚ) ≤ y) (h2 : y ≤ (B:ℚ)) :
    A ≤ pyRoundInt y ∧ pyRoundInt y ≤ B := by
  have hfA : A ≤ ⌊y⌋ := Int.le_floor.mpr h1
  have hfB : ⌊y⌋ ≤ B := by
    have h3 := Int.floor_le_floor h2
    simpa using h3
  have hup : ¬ (y - (⌊y⌋:ℚ) < 1/2) → (⌊y⌋ : ℤ) + 1 ≤ B := by
    intro hcase
    push_neg at hcase
    by_contra hBlt
    push_neg at hBlt
    have hfeq : ⌊y⌋ = B := by omega
    have h4 : y ≤ (⌊y⌋ : ℚ) := by rw [hfeq]; exact_mod_cast h2
    linarith
  unfold pyRoundInt
  dsimp only
  split_ifs with c1 c2 c3
  · exact ⟨hfA, hfB⟩
  · exact ⟨by omega, hup (by linarith)⟩
  · exact ⟨hfA, hfB⟩
  · exact ⟨by omega, hup (by linarith)⟩

theorem roundTo_bounds {k : ℕ} {x : ℚ} {A B : ℤ}
    (h1 : (A:ℚ) ≤ x * 10 ^ k) (h2 : x * 10 ^ k ≤ (B:ℚ)) :
    (A:ℚ) / 10 ^ k ≤ roundTo k x ∧ roundTo k x ≤ (B:ℚ) / 10 ^ k := by
  obtain ⟨g1, g2⟩ := pyRoundInt_bounds h1 h2
  unfold roundTo
  have g1Q : (A:ℚ) ≤ (pyRoundInt (x * 10 ^ k) : ℚ) := by exact_mod_cast g1
  have g2Q : ((pyRoundInt (x * 10 ^ k) : ℤ) : ℚ) ≤ (B:ℚ) := by exact_mod_cast g2
  constructor <;> gcongr

theorem paramRanges_bounds (vt : String) :
    80 ≤ (paramRanges vt).plo ∧ (paramRanges vt).plo ≤ (paramRanges vt).phi ∧
    (paramRanges vt).phi ≤ 800 ∧
    3.5 ≤ (paramRanges vt).vlo ∧ (paramRanges vt).vlo ≤ (paramRanges vt).vhi ∧
    (paramRanges vt).vhi ≤ 7 ∧
    0.005 ≤ (paramRanges vt).jlo ∧ (paramRanges vt).jlo ≤ (paramRanges vt).jhi ∧
    (paramRanges vt).jhi ≤ 0.02 := by
  unfold paramRanges
  split_ifs <;> norm_num

theorem enhancedFallback_fields (dsp : DSP) (hint : Option ℚ) (audio : Option (List ℚ))
    (g : RandState) :
    (enhancedFallback dsp hint audio g).mean_pitch =
      rclip (fallbackEstimated dsp hint audio g)
        (paramRanges (simpleVoiceType (fallbackEstimated dsp hint audio g))).plo
        (paramRanges (simpleVoiceType (fallbackEstimated dsp hint audio g))).phi ∧
    (enhancedFallback dsp hint audio g).vibrato_rate =
      roundTo 1 (uniformDraw
        (paramRanges (simpleVoiceType (fallbackEstimated dsp hint audio g))).vlo
        (paramRanges (simpleVoiceType (fallbackEstimated dsp hint audio g))).vhi g.u1) ∧
    (enhancedFallback dsp hint audio g).jitter =
      roundTo 3 (uniformDraw
        (paramRanges (simpleVoiceType (fallbackEstimated dsp hint audio g))).jlo
        (paramRanges (simpleVoiceType (fallbackEstimated dsp hint audio g))).jhi g.u2) ∧
    (enhancedFallback dsp hint audio g).shimmer =
      roundTo 3 (uniformDraw
        (paramRanges (simpleVoiceType (fallbackEstimated dsp hint audio g))).jlo
        (paramRanges (simpleVoiceType (fallbackEstimated dsp hint audio g))).jhi g.u2 *
        uniformDraw 1.2 1.8 g.u3) ∧
    (enhancedFallback dsp hint audio g).dynamics =
      choiceOf ["stable", "controlled", "variable"] g.c ∧
    (enhancedFallback dsp hint audio g).voice_type =
      simpleVoiceType (fallbackEstimated dsp hint audio g) ∧
    (enhancedFallback dsp hint audio g).lowest_note =
      frequencyToNote (fallbackEstimated dsp hint audio g * 0.7) ∧
    (enhancedFallback dsp hint audio g).highest_note =
      frequencyToNote (fallbackEstimated dsp hint audio g * 1.8) :=
  ⟨rfl, rfl, rfl, rfl, rfl, rfl, rfl, rfl⟩

set_option maxHeartbeats 1600000 in
theorem enhancedFallback_ranges (dsp : DSP) (hint : Option ℚ) (audio : Option (List ℚ))
    (g : RandState) (hg : UnitRange g) : rangesOk (enhancedFallback dsp hint audio g) := by
  obtain ⟨hu0a, hu0b, hu1a, hu1b, hu2a, hu2b, hu3a, hu3b⟩ := hg
  obtain ⟨hp1, hp2, hp3, hv1, hv2, hv3, hj1, hj2, hj3⟩ :=
    paramRanges_bounds (simpleVoiceType (fallbackEstimated dsp hint audio g))
  obtain ⟨hF1, hF2, hF3, hF4, hF5, hF6, hF7, hF8⟩ := enhancedFallback_fields dsp hint audio g
  set pr := paramRanges (simpleVoiceType (fallbackEstimated dsp hint audio g)) with hprdef
  unfold rangesOk
  rw [hF1, hF2, hF3, hF4]
  obtain ⟨hc1, hc2⟩ := rclip_bounds (fallbackEstimated dsp hint audio g) pr.plo pr.phi hp2
  obtain ⟨hv4, hv5⟩ := uniformDraw_bounds hv2 hu1a hu1b
  obtain ⟨hj4, hj5⟩ := uniformDraw_bounds hj2 hu2a hu2b
  obtain ⟨hs4, hs5⟩ := uniformDraw_bounds (by norm_num : (1.2:ℚ) ≤ 1.8) hu3a hu3b
  obtain ⟨hvr1, hvr2⟩ := roundTo_bounds (k := 1) (A := 35) (B := 70)
    (x := uniformDraw pr.vlo pr.vhi g.u1)
    (by push_cast; nlinarith) (by push_cast; nlinarith)
  obtain ⟨hjr1, hjr2⟩ := roundTo_bounds (k := 3) (A := 5) (B := 20)
    (x := uniformDraw pr.jlo pr.jhi g.u2)
    (by push_cast; nlinarith) (by push_cast; nlinarith)
  obtain ⟨hsr1, hsr2⟩ := roundTo_bounds (k := 3) (A := 6) (B := 36)
    (x := uniformDraw pr.jlo pr.jhi g.u2 * uniformDraw 1.2 1.8 g.u3)
    (by push_cast; nlinarith) (by push_cast; nlinarith)
  refine ⟨by linarith, by linarith, by norm_num at hvr1 ⊢; linarith,
    by norm_num at hvr2 ⊢; linarith, by norm_num at hjr1 ⊢; linarith,
    by norm_num at hjr2 ⊢; linarith, by norm_num at hsr1 ⊢; linarith,
    by norm_num at hsr2 ⊢; linarith⟩

theorem fixNoteRange_numeric (r : VocalMetrics) :
    (fixNoteRange r).mean_pitch = r.mean_pitch ∧
    (fixNoteRange r).vibrato_rate = r.vibrato_rate ∧
    (fixNoteRange r).jitter = r.jitter ∧
    (fixNoteRange r).shimmer = r.shimmer ∧
    (fixNoteRange r).dynamics = r.dynamics ∧
    (fixNoteRange r).voice_type = r.voice_type := by
  unfold fixNoteRange
  split_ifs <;> exact ⟨rfl, rfl, rfl, rfl, rfl, rfl⟩

theorem fixNoteRange_span (r : VocalMetrics) : spanOk (fixNoteRange r) := by
  unfold fixNoteRange spanOk
  split_ifs with h1 h2 h3 h4 h5 <;> simp_all

theorem clampMetrics_fields (r : VocalMetrics) :
    (clampMetrics r).mean_pitch = rclip r.mean_pitch 80 800 ∧
    (clampMetrics r).vibrato_rate = rclip r.vibrato_rate 0 10 ∧
    (clampMetrics r).jitter = rclip r.jitter 0.001 0.050 ∧
    (clampMetrics r).shimmer = rclip r.shimmer 0.005 0.060 ∧
    (clampMetrics r).dynamics = r.dynamics ∧
    (clampMetrics r).voice_type = r.voice_type :=
  ⟨rfl, rfl, rfl, rfl, rfl, rfl⟩

theorem hintOverride_dynamics (r : VocalMetrics) (hint : Option ℚ) :
    (hintOverride r hint).dynamics = r.dynamics := by
  unfold hintOverride
  cases hint with
  | none => rfl
  | some h =>
      dsimp only
      split_ifs <;> rfl

theorem hintOverride_voice (r : VocalMetrics) (hint : Option ℚ) :
    (hintOverride r hint).voice_type = r.voice_type ∨
    ∃ h, hint = some h ∧ (hintOverride r hint).voice_type = simpleVoiceType h := by
  unfold hintOverride
  cases hint with
  | none => exact Or.inl rfl
  | some h =>
      dsimp only
      split_ifs
      · exact Or.inr ⟨h, rfl, rfl⟩
      · exact Or.inl rfl

theorem validateAndRefine_dynamics (r : VocalMetrics) (hint : Option ℚ) :
    (validateAndRefine r hint).dynamics = r.dynamics := by
  unfold validateAndRefine
  rw [(fixNoteRange_numeric _).2.2.2.2.1, (clampMetrics_fields _).2.2.2.2.1,
    hintOverride_dynamics]

theorem validateAndRefine_voice (r : VocalMetrics) (hint : Option ℚ) :
    (validateAndRefine r hint).voice_type = r.voice_type ∨
    ∃ h, hint = some h ∧ (validateAndRefine r hint).voice_type = simpleVoiceType h := by
  unfold validateAndRefine
  rw [(fixNoteRange_numeric _).2.2.2.2.2, (clampMetrics_fields _).2.2.2.2.2]
  exact hintOverride_voice r hint

theorem validateAndRefine_voice_none (r : VocalMetrics) :
    (validateAndRefine r none).voice_type = r.voice_type := by
  rcases validateAndRefine_voice r none with h | ⟨h, hsome, _⟩
  · exact h
  · cases hsome

theorem validateAndRefine_ranges (r : VocalMetrics) (hint : Option ℚ) :
    rangesOk (validateAndRefine r hint) := by
  unfold validateAndRefine rangesOk
  obtain ⟨c1, c2, c3, c4, _, _⟩ := clampMetrics_fields (hintOverride r hint)
  obtain ⟨f1, f2, f3, f4, _, _⟩ := fixNoteRange_numeric (clampMetrics (hintOverride r hint))
  rw [f1, f2, f3, f4, c1, c2, c3, c4]
  have hA := rclip_bounds ((hintOverride r hint).mean_pitch) 80 800 (by norm_num)
  have hB := rclip_bounds ((hintOverride r hint).vibrato_rate) 0 10 (by norm_num)
  have hC := rclip_bounds ((hintOverride r hint).jitter) 0.001 0.050 (by norm_num)
  have hD := rclip_bounds ((hintOverride r hint).shimmer) 0.005 0.060 (by norm_num)
  exact ⟨hA.1, hA.2, hB.1, hB.2, hC.1, by linarith [hC.2], hD.1, by linarith [hD.2]⟩

theorem validateAndRefine_span (r : VocalMetrics) (hint : Option ℚ) :
    spanOk (validateAndRefine r hint) :=
  fixNoteRange_span _

theorem enhancedFallback_span (dsp : DSP) (hint : Option ℚ) (audio : Option (List ℚ))
    (g : RandState) (h : 0 < fallbackEstimated dsp hint audio g) :
    spanOk (enhancedFallback dsp hint audio g) := by
  obtain ⟨_, _, _, _, _, _, hF7, hF8⟩ := enhancedFallback_fields dsp hint audio g
  unfold spanOk
  rw [hF7, hF8]
  exact frequencyToNote_span h

theorem simpleVoiceType_mem (p : ℚ) :
    simpleVoiceType p ∈ (["bass", "baritone", "tenor", "alto"] : List String) := by
  unfold simpleVoiceType
  split_ifs <;> simp

theorem categorizeDynamicsAdvanced_mem (pv audio : List ℚ) :
    categorizeDynamicsAdvanced pv audio ∈
      (["stable", "controlled", "variable", "expressive", "highly expressive"] : List String) := by
  unfold categorizeDynamicsAdvanced
  dsimp only
  split_ifs <;> simp

theorem determineVoiceTypeAdvanced_mem (pv : List ℚ) (b : ℚ) :
    determineVoiceTypeAdvanced pv b ∈
      (["bass", "bass-baritone", "baritone", "tenor", "alto", "mezzo-soprano", "soprano"] :
        List String) := by
  unfold determineVoiceTypeAdvanced
  dsimp only
  split_ifs <;> simp

theorem choiceOf_dynamics_mem (k : ℕ) :
    choiceOf ["stable", "controlled", "variable"] k ∈
      (["stable", "controlled", "variable"] : List String) := by
  unfold choiceOf
  have h3 : k % 3 = 0 ∨ k % 3 = 1 ∨ k % 3 = 2 := by omega
  rcases h3 with h | h | h <;> simp [h]

theorem hint_override_applies (r : VocalMetrics) (h : ℚ) (hpos : 0 < h)
    (hout : r.mean_pitch < 50 ∨ 1000 < r.mean_pitch) :
    (validateAndRefine r (some h)).mean_pitch = rclip h 80 800 ∧
    (validateAndRefine r (some h)).voice_type = simpleVoiceType h := by
  have hho : hintOverride r (some h) =
      { r with mean_pitch := h, voice_type := simpleVoiceType h } := by
    unfold hintOverride
    dsimp only
    rw [if_pos ⟨hpos, hout⟩]
  constructor
  · rw [validateAndRefine, (fixNoteRange_numeric _).1, (clampMetrics_fields _).1, hho]
  · rw [validateAndRefine, (fixNoteRange_numeric _).2.2.2.2.2,
      (clampMetrics_fields _).2.2.2.2.2, hho]

def dspId : DSP := ⟨fun y => y, fun _ => 0.05, fun _ => 5, fun _ => 0.015, fun _ => 0.02,
  fun _ => none⟩

def rngHalf : RandState := ⟨1/2, 1/2, 1/2, 1/2, 0⟩

def rngOther : RandState := ⟨1/3, 2/3, 1/4, 3/4, 2⟩

def pvFlat12 : List ℚ := List.replicate 12 200

def rOutOfRange : VocalMetrics := ⟨2000, 5, 0.01, 0.02, "stable", "alto", 36, 60⟩

/-- C1 (amended): `analyze_audio_file` never surfaces a hard failure for any
path argument: the whole body sits in `try`, so a load failure — a null/empty
path included — is caught and routed to the Fallback Generator with no decoded
audio, and an extraction with fewer than 10 pitch values is routed to the
Fallback Generator with the decoded audio; a complete record is returned in
every case. -/
theorem C1_amended :
    (∀ (dsp : DSP) (e : String) (hint : Option ℚ) (g : RandState),
      analyzeAudioFile dsp (.error e) hint g = enhancedFallback dsp hint none g) ∧
    (∀ (dsp : DSP) (y : List ℚ) (hint : Option ℚ) (g : RandState),
      (dsp.extractPitch y).length < 10 →
      analyzeAudioFile dsp (.ok y) hint g = enhancedFallback dsp hint (some y) g) := by
  constructor
  · intro dsp e hint g
    rfl
  · intro dsp y hint g h
    unfold analyzeAudioFile
    dsimp only
    rw [if_pos h]

theorem C1_witness :
    analyzeAudioFile dspId (.ok []) (some 220) rngHalf =
      enhancedFallback dspId (some 220) (some []) rngHalf :=
  C1_amended.2 dspId [] (some 220) rngHalf (by norm_num [dspId])

/-- C1 counterexample: with a null/empty path, `librosa.load` raises inside the
`try` block, the blanket `except` catches it, and the analyzer returns the
fallback record — the call is routed to the Fallback Generator instead of
failing fast as the claim asserts. -/
theorem C1_counterexample :
    analyzeAudioFile dspId (.error "TypeError: path is None") (some 220) rngHalf =
      enhancedFallback dspId (some 220) none rngHalf := rfl

/-- C8 (confirmed): on the measured (non-fallback) path — at least 10 extracted
pitch values — the analyzer's result does not depend on the random state: no
stage of that path reads the random source. -/
theorem C8_determinism (dsp : DSP) (y : List ℚ) (hint : Option ℚ) (g1 g2 : RandState)
    (h : 10 ≤ (dsp.extractPitch y).length) :
    analyzeAudioFile dsp (.ok y) hint g1 = analyzeAudioFile dsp (.ok y) hint g2 := by
  unfold analyzeAudioFile
  dsimp only
  rw [if_neg (by omega), if_neg (by omega)]

theorem C8_witness :
    analyzeAudioFile dspId (.ok pvFlat12) none rngHalf =
      analyzeAudioFile dspId (.ok pvFlat12) none rngOther :=
  C8_determinism dspId pvFlat12 none rngHalf rngOther (by norm_num [dspId, pvFlat12])

/-- C9 (confirmed): `_simple_voice_type` returns only bass/baritone/tenor/alto,
so the hint-override path and the fallback generator never produce
bass-baritone, mezzo-soprano or soprano, however high the pitch. -/
theorem C9_simple_classifier :
    (∀ p : ℚ, simpleVoiceType p ∈ (["bass", "baritone", "tenor", "alto"] : List String)) ∧
    (∀ (dsp : DSP) (hint : Option ℚ) (audio : Option (List ℚ)) (g : RandState),
      (enhancedFallback dsp hint audio g).voice_type ∈
        (["bass", "baritone", "tenor", "alto"] : List String)) ∧
    (∀ (r : VocalMetrics) (h : ℚ), 0 < h → (r.mean_pitch < 50 ∨ 1000 < r.mean_pitch) →
      (validateAndRefine r (some h)).voice_type ∈
        (["bass", "baritone", "tenor", "alto"] : List String)) ∧
    (∀ p : ℚ, simpleVoiceType p ≠ "bass-baritone" ∧ simpleVoiceType p ≠ "mezzo-soprano" ∧
      simpleVoiceType p ≠ "soprano") := by
  refine ⟨simpleVoiceType_mem, ?_, ?_, ?_⟩
  · intro dsp hint audio g
    rw [(enhancedFallback_fields dsp hint audio g).2.2.2.2.2.1]
    exact simpleVoiceType_mem _
  · intro r h hpos hout
    rw [(hint_override_applies r h hpos hout).2]
    exact simpleVoiceType_mem _
  · intro p
    unfold simpleVoiceType
    split_ifs <;> decide

theorem C9_witness :
    (validateAndRefine rOutOfRange (some 400)).voice_type ∈
      (["bass", "baritone", "tenor", "alto"] : List String) :=
  C9_simple_classifier.2.2.1 rOutOfRange 400 (by norm_num)
    (Or.inr (by norm_num [rOutOfRange]))

/-- C10 (confirmed): the fallback generator draws its dynamics from
`random.choice(["stable", "controlled", "variable"])`, so a fallback record is
never expressive or highly expressive, whatever the hint, audio or draws. -/
theorem C10_fallback_dynamics (dsp : DSP) (hint : Option ℚ) (audio : Option (List ℚ))
    (g : RandState) :
    (enhancedFallback dsp hint audio g).dynamics ∈
      (["stable", "controlled", "variable"] : List String) ∧
    (enhancedFallback dsp hint audio g).dynamics ≠ "expressive" ∧
    (enhancedFallback dsp hint audio g).dynamics ≠ "highly expressive" := by
  rw [(enhancedFallback_fields dsp hint audio g).2.2.2.2.1]
  have hmem := choiceOf_dynamics_mem g.c
  refine ⟨hmem, ?_, ?_⟩ <;>
  · simp only [List.mem_cons, List.mem_singleton, List.not_mem_nil, or_false] at hmem
    rcases hmem with h | h | h <;> rw [h] <;> decide

/-- C4 (amended): with a truthy positive hint and a computed mean pitch outside
[50, 1000], the validator replaces the mean pitch by the hint (then clips it to
[80, 800], which fixes 220) and reclassifies with `_simple_voice_type`; the
simple-threshold classification of 220 Hz is "bass" (220 < 250), not
"baritone" as the spec asserts. -/
theorem C4_hint_override :
    (∀ (r : VocalMetrics) (h : ℚ), 0 < h → (r.mean_pitch < 50 ∨ 1000 < r.mean_pitch) →
      (validateAndRefine r (some h)).mean_pitch = rclip h 80 800 ∧
      (validateAndRefine r (some h)).voice_type = simpleVoiceType h) ∧
    simpleVoiceType 220 = "bass" ∧ rclip 220 80 800 = 220 := by
  refine ⟨hint_override_applies, by norm_num [simpleVoiceType], ?_⟩
  norm_num [rclip, max_def, min_def]

theorem C4_witness :
    (validateAndRefine rOutOfRange (some 220)).mean_pitch = rclip 220 80 800 ∧
    (validateAndRefine rOutOfRange (some 220)).voice_type = simpleVoiceType 220 :=
  C4_hint_override.1 rOutOfRange 220 (by norm_num) (Or.inr (by norm_num [rOutOfRange]))

/-- C4 counterexample: at hint 220 Hz with an out-of-range computed mean pitch,
the result has mean_pitch 220 but voice_type "bass": the simple threshold
classifier maps 220 to "bass" (220 < 250), not to "baritone" as the claim's
spec sentence states. -/
theorem C4_counterexample :
    (validateAndRefine rOutOfRange (some 220)).mean_pitch = 220 ∧
    (validateAndRefine rOutOfRange (some 220)).voice_type = "bass" ∧
    simpleVoiceType 220 = "bass" ∧ "bass" ≠ "baritone" := by
  obtain ⟨hm, hv⟩ := hint_override_applies rOutOfRange 220 (by norm_num)
    (Or.inr (by norm_num [rOutOfRange]))
  refine ⟨?_, ?_, by norm_num [simpleVoiceType], by decide⟩
  · rw [hm]
    norm_num [rclip, max_def, min_def]
  · rw [hv]
    norm_num [simpleVoiceType]

/-- C2 (confirmed): every record the analyzer returns — measured path (the
validator clips every numeric metric) and fallback path (voice-type-specific
uniform draws and clips) alike — satisfies 80 ≤ mean_pitch ≤ 800,
0 ≤ vibrato_rate ≤ 10, 0.001 ≤ jitter ≤ 0.05 and 0.005 ≤ shimmer ≤ 0.06. -/
theorem C2_range_invariants (dsp : DSP) (load : Except String (List ℚ)) (hint : Option ℚ)
    (g : RandState) (hg : UnitRange g) : rangesOk (analyzeAudioFile dsp load hint g) := by
  cases load with
  | error e => exact enhancedFallback_ranges dsp hint none g hg
  | ok y =>
      unfold analyzeAudioFile
      dsimp only
      split_ifs with h
      · exact enhancedFallback_ranges dsp hint (some y) g hg
      · exact validateAndRefine_ranges _ _

theorem C2_witness : rangesOk (analyzeAudioFile dspId (.ok pvFlat12) none rngHalf) :=
  C2_range_invariants dspId (.ok pvFlat12) none rngHalf (by norm_num [UnitRange, rngHalf])

def rMezzo : VocalMetrics := ⟨400, 5, 0.01, 0.02, "stable", "mezzo-soprano", 45, 48⟩

/-- C3 counterexample, two parts.  (1) The canonical-default mapping the claim
lists is wrong for mezzo-soprano: on a span violation the source tests
`'soprano' in voice_type` before reaching the alto/mezzo default, so a
mezzo-soprano record gets C4–C6 (half-steps 48/72), not G3–G5 (43/67).
(2) The span invariant fails on the fallback path when the caller passes a
negative (truthy) hint: the estimate stays negative, both notes fall to the
`frequency ≤ 0` default "C3" (36), and the span is zero. -/
theorem C3_counterexample :
    (validateAndRefine rMezzo none).lowest_note = 48 ∧
    (validateAndRefine rMezzo none).highest_note = 72 ∧
    noteName 48 = "C4" ∧ noteName 72 = "C6" ∧ noteName 43 = "G3" ∧ noteName 67 = "G5" ∧
    ((validateAndRefine rMezzo none).lowest_note ≠ 43 ∧
      (validateAndRefine rMezzo none).highest_note ≠ 67) ∧
    (enhancedFallback dspId (some (-100)) none rngHalf).lowest_note = 36 ∧
    (enhancedFallback dspId (some (-100)) none rngHalf).highest_note = 36 ∧
    ¬ spanOk (enhancedFallback dspId (some (-100)) none rngHalf) := by
  have h1 : hasSub "mezzo-soprano" "bass" = false := by decide
  have h2 : hasSub "mezzo-soprano" "baritone" = false := by decide
  have h3 : hasSub "mezzo-soprano" "tenor" = false := by decide
  have h4 : hasSub "mezzo-soprano" "soprano" = true := by decide
  have hval : ∀ pr : Prop, (((validateAndRefine rMezzo none).lowest_note = 48 ∧
      (validateAndRefine rMezzo none).highest_note = 72) → pr) → pr := by
    intro pr hk
    apply hk
    constructor <;> norm_num [validateAndRefine, hintOverride, clampMetrics, fixNoteRange,
      rMezzo, h1, h2, h3, h4, rclip]
  have hfb : (enhancedFallback dspId (some (-100)) none rngHalf).lowest_note = 36 ∧
      (enhancedFallback dspId (some (-100)) none rngHalf).highest_note = 36 := by
    obtain ⟨_, _, _, _, _, _, hF7, hF8⟩ := enhancedFallback_fields dspId (some (-100)) none rngHalf
    have hest : fallbackEstimated dspId (some (-100)) none rngHalf = -100 := by
      norm_num [fallbackEstimated, hintOr]
    rw [hF7, hF8, hest]
    constructor <;> norm_num [frequencyToNote]
  have hnm : noteName 48 = "C4" ∧ noteName 72 = "C6" ∧ noteName 43 = "G3" ∧
      noteName 67 = "G5" := by decide
  obtain ⟨m1, m2, m3, m4⟩ := hnm
  refine hval _ (fun hv => ⟨hv.1, hv.2, m1, m2, m3, m4,
    ⟨by rw [hv.1]; decide, by rw [hv.2]; decide⟩, hfb.1, hfb.2, ?_⟩)
  unfold spanOk
  rw [hfb.1, hfb.2]
  decide

/-- C3 (amended): (1) every measured-path record satisfies the span invariant —
frequency(highest) ≥ 1.5 × frequency(lowest), i.e. at least 8 half-steps —
because the validator replaces any violating pair with a default range spanning
two octaves; (2) a fallback record satisfies it whenever the working pitch
estimate is positive (the notes sit a factor 18/7 apart, more than an octave);
and (3) on a span violation the validator's substring dispatch maps bass and
bass-baritone to E2–E4, baritone to G2–G4, tenor to C3–C5, soprano AND
mezzo-soprano to C4–C6, and only alto to G3–G5. -/
theorem C3_span_invariant :
    (∀ (dsp : DSP) (y : List ℚ) (hint : Option ℚ) (g : RandState),
      10 ≤ (dsp.extractPitch y).length → spanOk (analyzeAudioFile dsp (.ok y) hint g)) ∧
    (∀ (dsp : DSP) (hint : Option ℚ) (audio : Option (List ℚ)) (g : RandState),
      0 < fallbackEstimated dsp hint audio g → spanOk (enhancedFallback dsp hint audio g)) ∧
    (∀ r : VocalMetrics, r.highest_note < r.lowest_note + 8 →
      ((r.voice_type = "bass" ∨ r.voice_type = "bass-baritone") →
        (fixNoteRange r).lowest_note = 28 ∧ (fixNoteRange r).highest_note = 52) ∧
      (r.voice_type = "baritone" →
        (fixNoteRange r).lowest_note = 31 ∧ (fixNoteRange r).highest_note = 55) ∧
      (r.voice_type = "tenor" →
        (fixNoteRange r).lowest_note = 36 ∧ (fixNoteRange r).highest_note = 60) ∧
      ((r.voice_type = "soprano" ∨ r.voice_type = "mezzo-soprano") →
        (fixNoteRange r).lowest_note = 48 ∧ (fixNoteRange r).highest_note = 72) ∧
      (r.voice_type = "alto" →
        (fixNoteRange r).lowest_note = 43 ∧ (fixNoteRange r).highest_note = 67)) ∧
    noteName 28 = "E2" ∧ noteName 52 = "E4" ∧ noteName 31 = "G2" ∧ noteName 55 = "G4" ∧
    noteName 36 = "C3" ∧ noteName 60 = "C5" ∧ noteName 48 = "C4" ∧ noteName 72 = "C6" ∧
    noteName 43 = "G3" ∧ noteName 67 = "G5" := by
  have hnm : noteName 28 = "E2" ∧ noteName 52 = "E4" ∧ noteName 31 = "G2" ∧ noteName 55 = "G4" ∧
      noteName 36 = "C3" ∧ noteName 60 = "C5" ∧ noteName 48 = "C4" ∧ noteName 72 = "C6" ∧
      noteName 43 = "G3" ∧ noteName 67 = "G5" := by decide
  obtain ⟨n1, n2, n3, n4, n5, n6, n7, n8, n9, n10⟩ := hnm
  refine ⟨?_, enhancedFallback_span, ?_, n1, n2, n3, n4, n5, n6, n7, n8, n9, n10⟩
  · intro dsp y hint g h
    unfold analyzeAudioFile
    dsimp only
    rw [if_neg (by omega)]
    exact validateAndRefine_span _ _
  · intro r h
    refine ⟨?_, ?_, ?_, ?_, ?_⟩ <;> intro hvt
    · rcases hvt with hv | hv <;>
        simp [fixNoteRange, if_pos h, hv, show hasSub "bass" "bass" = true from by decide,
          show hasSub "bass-baritone" "bass" = true from by decide]
    · simp [fixNoteRange, if_pos h, hvt,
        show hasSub "baritone" "bass" = false from by decide,
        show hasSub "baritone" "baritone" = true from by decide]
    · simp [fixNoteRange, if_pos h, hvt,
        show hasSub "tenor" "bass" = false from by decide,
        show hasSub "tenor" "baritone" = false from by decide,
        show hasSub "tenor" "tenor" = true from by decide]
    · rcases hvt with hv | hv <;>
        simp [fixNoteRange, if_pos h, hv,
          show hasSub "soprano" "bass" = false from by decide,
          show hasSub "soprano" "baritone" = false from by decide,
          show hasSub "soprano" "tenor" = false from by decide,
          show hasSub "soprano" "soprano" = true from by decide,
          show hasSub "mezzo-soprano" "bass" = false from by decide,
          show hasSub "mezzo-soprano" "baritone" = false from by decide,
          show hasSub "mezzo-soprano" "tenor" = false from by decide,
          show hasSub "mezzo-soprano" "soprano" = true from by decide]
    · simp [fixNoteRange, if_pos h, hvt,
        show hasSub "alto" "bass" = false from by decide,
        show hasSub "alto" "baritone" = false from by decide,
        show hasSub "alto" "tenor" = false from by decide,
        show hasSub "alto" "soprano" = false from by decide]

theorem C3_witness : spanOk (enhancedFallback dspId (some 200) none rngHalf) :=
  C3_span_invariant.2.1 dspId (some 200) none rngHalf
    (by norm_num [fallbackEstimated, hintOr, dspId])

/-- C6 (confirmed): voice-type classification is exactly the bucketing of
`(0.7·mean + 0.3·median) · (1 + (brightness − 0.05)·2)` through thresholds
160/200/250/300/350/450, and flat series at 159/161, 249/251, 299/301, 349/351
and 449/451 Hz with neutral brightness classify into the two adjacent buckets
straddling each of those thresholds. -/
theorem C6_voice_type_formula :
    (∀ (pv : List ℚ) (b : ℚ), determineVoiceTypeAdvanced pv b =
      specVoiceBucket ((0.7 * qmean pv + 0.3 * qmedian pv) * (1 + (b - 0.05) * 2))) ∧
    determineVoiceTypeAdvanced (List.replicate 4 159) 0.05 = "bass" ∧
    determineVoiceTypeAdvanced (List.replicate 4 161) 0.05 = "bass-baritone" ∧
    determineVoiceTypeAdvanced (List.replicate 4 249) 0.05 = "baritone" ∧
    determineVoiceTypeAdvanced (List.replicate 4 251) 0.05 = "tenor" ∧
    determineVoiceTypeAdvanced (List.replicate 4 299) 0.05 = "tenor" ∧
    determineVoiceTypeAdvanced (List.replicate 4 301) 0.05 = "alto" ∧
    determineVoiceTypeAdvanced (List.replicate 4 349) 0.05 = "alto" ∧
    determineVoiceTypeAdvanced (List.replicate 4 351) 0.05 = "mezzo-soprano" ∧
    determineVoiceTypeAdvanced (List.replicate 4 449) 0.05 = "mezzo-soprano" ∧
    determineVoiceTypeAdvanced (List.replicate 4 451) 0.05 = "soprano" := by
  refine ⟨fun pv b => rfl, ?_, ?_, ?_, ?_, ?_, ?_, ?_, ?_, ?_, ?_⟩ <;>
    norm_num [determineVoiceTypeAdvanced, qmean, qmedian, percentileQ, sortQ, insertSorted,
      List.replicate]

def pvAlt12 : List ℚ := [100, 300, 100, 300, 100, 300, 100, 300, 100, 300, 100, 300]

def audio20 : List ℚ := List.replicate 20 1

def dspDyn : DSP := ⟨fun _ => pvAlt12, fun _ => 0.05, fun _ => 5, fun _ => 0.015, fun _ => 0.02,
  fun _ => none⟩

def pvFlat180 : List ℚ := List.replicate 12 180

def dspBB : DSP := ⟨fun _ => pvFlat180, fun _ => 0.05, fun _ => 5, fun _ => 0.015, fun _ => 0.02,
  fun _ => none⟩

/-- C5 (amended): every returned record's dynamics is one of stable,
controlled, variable, expressive, "highly expressive" (with a space), and its
voice_type is one of bass, "bass-baritone", baritone, tenor, alto,
"mezzo-soprano", soprano (hyphenated): the code spells the multi-word values
with a space/hyphen, not the underscores the data-model enum declares. -/
theorem C5_enum_membership (dsp : DSP) (load : Except String (List ℚ)) (hint : Option ℚ)
    (g : RandState) :
    (analyzeAudioFile dsp load hint g).dynamics ∈
      (["stable", "controlled", "variable", "expressive", "highly expressive"] : List String) ∧
    (analyzeAudioFile dsp load hint g).voice_type ∈
      (["bass", "bass-baritone", "baritone", "tenor", "alto", "mezzo-soprano", "soprano"] :
        List String) := by
  have hd3 : ∀ x : String, x ∈ (["stable", "controlled", "variable"] : List String) →
      x ∈ (["stable", "controlled", "variable", "expressive", "highly expressive"] :
        List String) := by
    intro x hx
    simp only [List.mem_cons, List.not_mem_nil, or_false] at hx ⊢
    tauto
  have hv4 : ∀ x : String, x ∈ (["bass", "baritone", "tenor", "alto"] : List String) →
      x ∈ (["bass", "bass-baritone", "baritone", "tenor", "alto", "mezzo-soprano", "soprano"] :
        List String) := by
    intro x hx
    simp only [List.mem_cons, List.not_mem_nil, or_false] at hx ⊢
    tauto
  have hfb : ∀ audio : Option (List ℚ),
      (enhancedFallback dsp hint audio g).dynamics ∈
        (["stable", "controlled", "variable", "expressive", "highly expressive"] :
          List String) ∧
      (enhancedFallback dsp hint audio g).voice_type ∈
        (["bass", "bass-baritone", "baritone", "tenor", "alto", "mezzo-soprano", "soprano"] :
          List String) := by
    intro audio
    constructor
    · rw [(enhancedFallback_fields dsp hint audio g).2.2.2.2.1]
      exact hd3 _ (choiceOf_dynamics_mem _)
    · rw [(enhancedFallback_fields dsp hint audio g).2.2.2.2.2.1]
      exact hv4 _ (simpleVoiceType_mem _)
  cases load with
  | error e => exact hfb none
  | ok y =>
      unfold analyzeAudioFile
      dsimp only
      split_ifs with h
      · exact hfb (some y)
      · constructor
        · rw [validateAndRefine_dynamics]
          exact categorizeDynamicsAdvanced_mem _ _
        · rcases validateAndRefine_voice
            ⟨robustMeanPitch (dsp.extractPitch y), dsp.vibratoRate (dsp.extractPitch y),
              dsp.jitterCalc (dsp.extractPitch y), dsp.shimmerCalc y,
              categorizeDynamicsAdvanced (dsp.extractPitch y) y,
              determineVoiceTypeAdvanced (dsp.extractPitch y) (dsp.brightness y),
              frequencyToNote (stablePitchPercentile (dsp.extractPitch y) 5),
              frequencyToNote (stablePitchPercentile (dsp.extractPitch y) 95)⟩ hint
            with hv | ⟨hh, _, hv⟩
          · rw [hv]
            exact determineVoiceTypeAdvanced_mem _ _
          · rw [hv]
            exact hv4 _ (simpleVoiceType_mem _)

/-- C5 counterexample: the analyzer returns records whose dynamics reads
"highly expressive" (a space, not `highly_expressive`) and whose voice type
reads "bass-baritone" (a hyphen, not `bass_baritone`) — neither is among the
underscore spellings the claim declares. -/
theorem C5_counterexample :
    (analyzeAudioFile dspDyn (.ok audio20) none rngHalf).dynamics = "highly expressive" ∧
    "highly expressive" ∉
      (["stable", "controlled", "variable", "expressive", "highly_expressive"] : List String) ∧
    (analyzeAudioFile dspBB (.ok audio20) none rngHalf).voice_type = "bass-baritone" ∧
    "bass-baritone" ∉
      (["bass", "bass_baritone", "baritone", "tenor", "alto", "mezzo_soprano", "soprano"] :
        List String) := by
  refine ⟨?_, by decide, ?_, by decide⟩
  · have hred : analyzeAudioFile dspDyn (.ok audio20) none rngHalf = validateAndRefine
        ⟨robustMeanPitch pvAlt12, 5, 0.015, 0.02, categorizeDynamicsAdvanced pvAlt12 audio20,
          determineVoiceTypeAdvanced pvAlt12 0.05,
          frequencyToNote (stablePitchPercentile pvAlt12 5),
          frequencyToNote (stablePitchPercentile pvAlt12 95)⟩ none := by
      unfold analyzeAudioFile
      dsimp only [dspDyn]
      rw [if_neg (by norm_num [pvAlt12])]
    rw [hred, validateAndRefine_dynamics]
    show categorizeDynamicsAdvanced pvAlt12 audio20 = "highly expressive"
    have hr : List.range 19 = [0,1,2,3,4,5,6,7,8,9,10,11,12,13,14,15,16,17,18] := by decide
    have hw : ampWindows (List.replicate 20 1) = List.replicate 19 1 := by
      norm_num [ampWindows, List.replicate, hr]
    have hm : qmean pvAlt12 = 200 := by norm_num [qmean, pvAlt12]
    have hs : qstd pvAlt12 = 100 := by
      have e1 : isqrt (Int.toNat 10000) = 100 := by decide
      have e2 : isqrt 1 = 1 := by decide
      norm_num [qstd, qvariance, qmean, ratSqrt, pvAlt12, e1, e2]
    have hp : qptp pvAlt12 = 200 := by norm_num [qptp, lmax, lmin, pvAlt12]
    have hwm : qmean (List.replicate 19 (1:ℚ)) = 1 := by norm_num [qmean, List.replicate]
    have hws : qstd (List.replicate 19 (1:ℚ)) = 0 := by
      have e3 : isqrt 0 = 0 := by decide
      norm_num [qstd, qvariance, qmean, ratSqrt, List.replicate, e3]
    have hwp : qptp (List.replicate 19 (1:ℚ)) = 0 := by
      norm_num [qptp, lmax, lmin, List.replicate]
    have hlen : pvAlt12.length = 12 := by decide
    norm_num [categorizeDynamicsAdvanced, dynScore, hw, hm, hs, hp, hwm, hws, hwp, hlen, audio20]
  · have hred : analyzeAudioFile dspBB (.ok audio20) none rngHalf = validateAndRefine
        ⟨robustMeanPitch pvFlat180, 5, 0.015, 0.02, categorizeDynamicsAdvanced pvFlat180 audio20,
          determineVoiceTypeAdvanced pvFlat180 0.05,
          frequencyToNote (stablePitchPercentile pvFlat180 5),
          frequencyToNote (stablePitchPercentile pvFlat180 95)⟩ none := by
      unfold analyzeAudioFile
      dsimp only [dspBB]
      rw [if_neg (by norm_num [pvFlat180])]
    rw [hred, validateAndRefine_voice_none]
    show determineVoiceTypeAdvanced pvFlat180 0.05 = "bass-baritone"
    norm_num [determineVoiceTypeAdvanced, qmean, qmedian, percentileQ, sortQ, insertSorted,
      pvFlat180, List.replicate, show Int.toNat (5:ℤ) = 5 from rfl]

def pv50 : List ℚ := [190, 210, 190, 210, 190, 210, 190, 210, 190, 210, 190, 210, 190, 210, 190, 210, 190, 210, 190, 210, 190, 210, 190, 210, 190, 210, 190, 210, 190, 210, 190, 210, 190, 210, 190, 210, 190, 210, 190, 210, 190, 210, 190, 210, 190, 210, 190, 210, 190, 210]

/-- C7 counterexample: at exactly 50 pitch samples the source applies no
pattern-strength multiplier (`if len(pitch_values) > 50`), while the claim's
formula (multiplier at ≥ 50) pushes the same input over the 0.35 boundary: the
code returns "stable" where the claimed formula maps to "highly expressive". -/
theorem C7_counterexample :
    categorizeDynamicsAdvanced pv50 audio20 = "stable" ∧
    specThresholdMap (specDynamicsScoreAtLeast50 pv50 audio20) = "highly expressive" ∧
    ("stable" : String) ≠ "highly expressive" := by
  have hr : List.range 19 = [0,1,2,3,4,5,6,7,8,9,10,11,12,13,14,15,16,17,18] := by decide
  have hw : ampWindows (List.replicate 20 1) = List.replicate 19 1 := by
    norm_num [ampWindows, List.replicate, hr]
  have hwm : qmean (List.replicate 19 (1:ℚ)) = 1 := by norm_num [qmean, List.replicate]
  have hws : qstd (List.replicate 19 (1:ℚ)) = 0 := by
    have e3 : isqrt 0 = 0 := by decide
    norm_num [qstd, qvariance, qmean, ratSqrt, List.replicate, e3]
  have hwp : qptp (List.replicate 19 (1:ℚ)) = 0 := by
    norm_num [qptp, lmax, lmin, List.replicate]
  have hm : qmean pv50 = 200 := by norm_num [qmean, pv50]
  have hs : qstd pv50 = 10 := by
    have e1 : isqrt (Int.toNat 100) = 10 := by decide
    have e2 : isqrt 1 = 1 := by decide
    norm_num [qstd, qvariance, qmean, ratSqrt, pv50, e1, e2]
  have hp : qptp pv50 = 20 := by norm_num [qptp, lmax, lmin, pv50]
  have hlen : pv50.length = 50 := by decide
  have hd : qdiffs pv50 = [20, -20, 20, -20, 20, -20, 20, -20, 20, -20, 20, -20, 20, -20, 20, -20, 20, -20, 20, -20, 20, -20, 20, -20, 20, -20, 20, -20, 20, -20, 20, -20, 20, -20, 20, -20, 20, -20, 20, -20, 20, -20, 20, -20, 20, -20, 20, -20, 20] := by norm_num [qdiffs, pv50]
  have hsum : ((qdiffs pv50).map (fun x => x ^ 2)).sum = 19600 := by
    rw [hd]
    norm_num
  have hvar : qvariance (qdiffs pv50) = 960000/2401 := by
    rw [hd]
    norm_num [qvariance, qmean]
  refine ⟨?_, ?_, by decide⟩
  · norm_num [categorizeDynamicsAdvanced, dynScore, hw, hm, hs, hp, hwm, hws, hwp, hlen, audio20]
  · have hval : (0.35:ℚ) ≤ specDynamicsScoreAtLeast50 pv50 audio20 := by
      unfold specDynamicsScoreAtLeast50
      norm_num [hw, hm, hs, hp, hwm, hws, hwp, hlen, hsum, hvar, audio20]
    unfold specThresholdMap
    rw [if_neg (by linarith), if_neg (by linarith), if_neg (by linarith), if_neg (by linarith)]

/-- C7 (amended): the dynamics score is the weighted sum
`0.3·pitch-CoV + 0.2·pitch-range-ratio + 0.3·amplitude-CoV +
0.2·amplitude-range-ratio`, multiplied by `1 + 0.2·pattern_strength` whenever
STRICTLY MORE than 50 pitch samples are available (the multiplier does not
apply at exactly 50), and whenever the amplitude windowing is defined
(audio of at least 20 samples) the category is the final score mapped through
the 0.08/0.15/0.25/0.35 boundaries. -/
theorem C7_dynamics_score_map :
    (∀ pv audio : List ℚ, dynScore pv audio = specDynamicsScoreMoreThan50 pv audio) ∧
    (∀ pv audio : List ℚ, audio.length / 20 ≠ 0 →
      categorizeDynamicsAdvanced pv audio = specThresholdMap (dynScore pv audio)) := by
  constructor
  · intro pv audio
    rfl
  · intro pv audio h
    unfold categorizeDynamicsAdvanced specThresholdMap
    rw [if_neg h]

theorem C7_witness :
    categorizeDynamicsAdvanced pv50 audio20 = specThresholdMap (dynScore pv50 audio20) :=
  C7_dynamics_score_map.2 pv50 audio20 (by norm_num [audio20])
